import Mathlib

/-!
Shallow embedding of `index/config.py` (the `UpperDict` case-insensitive
nested dictionary and the `Config` singleton built on it), together with
proofs of the behavioural claims about it.

Python dicts are modelled as insertion-ordered association lists, Python
exceptions as an `Err` sum propagated through `Except`, and `str.upper`
as the ASCII case map `Char.toUpper` applied characterwise.
-/

namespace IndexConfig

/-- Python `str.upper` (ASCII case map applied to every character), as used
by `UpperDict` for key normalisation. -/
def upper (s : String) : String := ⟨s.data.map Char.toUpper⟩

/-- Python runtime values that can reach the configuration store: scalars
(`None`, `bool`, `int`, `str`), sequences (`list`, modelling Python lists
and tuples alike), raw mapping literals (`dict`, an insertion-ordered
association list), and `UpperDict` instances (`node`, holding the contents
of their private `__dict` attribute). -/
inductive Value : Type where
  | null : Value
  | bool : Bool → Value
  | int : Int → Value
  | str : String → Value
  | list : List Value → Value
  | dict : List (String × Value) → Value
  | node : List (String × Value) → Value

/-- Python `value is None`. -/
def Value.isNull : Value → Bool
  | .null => true
  | _ => false

/-- Is this value a Python `dict` literal (`isinstance(value, dict)`)? -/
def Value.isDict : Value → Bool
  | .dict _ => true
  | _ => false

/-- Is this value an `UpperDict` instance? -/
def Value.isNode : Value → Bool
  | .node _ => true
  | _ => false

/-- The contents of an `UpperDict.__dict` store (a Python dict keyed by the
already-uppercased key strings). -/
abbrev Node := List (String × Value)

/-- Python dict lookup `d[k]` as an `Option` (`none` models `KeyError`). -/
def dictFind : List (String × Value) → String → Option Value
  | [], _ => none
  | (k', v) :: rest, k => if k' = k then some v else dictFind rest k

/-- Python dict assignment `d[k] = v`: the value of an existing key is
replaced in place (its position kept), a new key is appended at the end. -/
def dictAssign : List (String × Value) → String → Value → List (String × Value)
  | [], k, v => [(k, v)]
  | (k', v') :: rest, k, v =>
      if k' = k then (k, v) :: rest else (k', v') :: dictAssign rest k v

/-- Exceptions the modelled code can raise: `keyError`, `typeError`,
`valueError`, `attributeError` model the Python builtins; `configError`
models `index.config.ConfigError` with its message; `configFileError`
models `index.config.ConfigFileError`, carrying the two filenames spliced
into its message "`<first>` and `<second>` cannot be used at the same
project.". -/
inductive Err : Type where
  | keyError : Err
  | typeError : Err
  | valueError : Err
  | attributeError : Err
  | configError : String → Err
  | configFileError : String → String → Err
deriving DecidableEq

mutual

/-- `UpperDict.__setitem__(key, value)`: uppercase the key; a dict value is
merged item-by-item into an existing entry (whatever that entry holds) or
wrapped in a fresh `UpperDict`; any other value is stored as-is. -/
def setitem (d : Node) (key : String) (v : Value) : Except Err Node :=
  match v with
  | .dict es =>
    match dictFind d (upper key) with
    | some child => (mergeItems child es).map (fun res => dictAssign d (upper key) res)
    | none => (fromDict es []).map (fun nd => dictAssign d (upper key) (.node nd))
  | _ => .ok (dictAssign d (upper key) v)

/-- The merge loop `for k, v in value.items(): self.__dict[key][k.upper()] = v`:
item assignment on a stored value that is not an `UpperDict` raises
`TypeError` (scalars and sequences do not support string-keyed assignment). -/
def mergeItems (child : Value) (es : List (String × Value)) : Except Err Value :=
  match es with
  | [] => .ok child
  | (k, v) :: rest =>
    match child with
    | .node c => (setitem c (upper k) v).bind (fun c2 => mergeItems (.node c2) rest)
    | _ => .error .typeError

/-- `UpperDict.__init__(data)`: start from an empty store and `__setitem__`
every entry of `data` in order. -/
def fromDict (es : List (String × Value)) (acc : Node) : Except Err Node :=
  match es with
  | [] => .ok acc
  | (k, v) :: rest => (setitem acc k v).bind (fun acc2 => fromDict rest acc2)

end

/-- `UpperDict.__getitem__(key)`: uppercase and look up; `KeyError` when
absent. -/
def getitem (d : Node) (key : String) : Except Err Value :=
  match dictFind d (upper key) with
  | some v => .ok v
  | none => .error .keyError

/-- `UpperDict.get(key, default)`: `__getitem__` with the `KeyError`
recovered into `default`. -/
def udGet (d : Node) (key : String) (default : Value) : Value :=
  match dictFind d (upper key) with
  | some v => v
  | none => default

/-- `_import_environ()`: the arguments are the values of the `INDEX_DEBUG`
and `INDEX_ENV` process environment variables (`none` = unset). A variable
participates only when its value is truthy (present and non-empty); the
debug flag is true exactly for the strings `"on"` and `"True"`. The result
is the plain (lower-case-keyed) Python dict the function returns. -/
def importEnviron (indexDebug indexEnv : Option String) : List (String × Value) :=
  let r0 : List (String × Value) := []
  let r1 := match indexDebug with
    | some s => if s = "" then r0
        else dictAssign r0 "debug" (.bool (s == "on" || s == "True"))
    | none => r0
  match indexEnv with
  | some s => if s = "" then r1 else dictAssign r1 "env" (.str s)
  | none => r1

/-- The candidate configuration filenames of `Config.import_from_file`, in
the order the loop probes them. -/
def candidateFiles : List String := ["config.json", "index.json", "index.yaml", "index.yml"]

/-- The discovery loop of `Config.import_from_file`: `fs` is the list of
files that exist in the working directory, `cands` the candidates still to
probe, `filename` the candidate already found. Finding a second existing
candidate raises `ConfigFileError` naming both files. -/
def scanLoop (fs : List String) (cands : List String) (filename : Option String) :
    Except Err (Option String) :=
  match cands with
  | [] => .ok filename
  | f :: rest =>
    if fs.contains f then
      match filename with
      | some prev => .error (.configFileError prev f)
      | none => scanLoop fs rest (some f)
    else scanLoop fs rest filename

/-- The file-discovery part of `Config.import_from_file`, run over the full
candidate list. -/
def findConfigFile (fs : List String) : Except Err (Option String) :=
  scanLoop fs candidateFiles none

/-- Python `bool(value)` truthiness for the modelled values (an `UpperDict`
defines no `__bool__`/`__len__`, so instances are always truthy). -/
def pyBool : Value → Bool
  | .null => false
  | .bool b => b
  | .int n => n != 0
  | .str s => s != ""
  | .list l => !l.isEmpty
  | .dict es => !es.isEmpty
  | .node _ => true

/-- The numeric value of a non-empty all-digit character list, as Python
`int` parsing reads it. -/
def digitsVal (cs : List Char) : Option Nat :=
  if cs.isEmpty then none
  else if cs.all Char.isDigit then
    some (cs.foldl (fun a c => a * 10 + (c.toNat - 48)) 0)
  else none

/-- Python `int(s)` on a string: surrounding whitespace is ignored, an
optional sign precedes a non-empty run of digits; anything else raises
`ValueError`. -/
def pyIntOfStr (s : String) : Option Int :=
  let cs := ((s.data.dropWhile Char.isWhitespace).reverse.dropWhile Char.isWhitespace).reverse
  match cs with
  | '+' :: rest => (digitsVal rest).map (Int.ofNat)
  | '-' :: rest => (digitsVal rest).map (fun n => -(n : Int))
  | rest => (digitsVal rest).map (Int.ofNat)

/-- Python `int(value)` for the modelled values: bools and ints convert,
strings are parsed (`ValueError` on failure), everything else raises
`TypeError`. -/
def pyInt : Value → Except Err Int
  | .bool b => .ok (if b then 1 else 0)
  | .int n => .ok n
  | .str s =>
    match pyIntOfStr s with
    | some n => .ok n
    | none => .error .valueError
  | _ => .error .typeError

/-- Python `list(value)` for the modelled values: lists are copied, strings
iterate their characters, dicts their keys; scalars raise `TypeError`;
an `UpperDict` falls into the legacy `__getitem__`-based iteration protocol,
whose first call `ud[0]` raises `AttributeError` (`0` has no `.upper`). -/
def pyList : Value → Except Err (List Value)
  | .list l => .ok l
  | .str s => .ok (s.data.map (fun c => .str (String.mk [c])))
  | .dict es => .ok (es.map (fun p => .str p.1))
  | .node _ => .error .attributeError
  | _ => .error .typeError

/-- The error message of every `Config` mutation guard. -/
def mutationMessage : String := "Modifying the attribute value of Config is not allowed."

/-- `Config.__setitem__(key, value)`: uppercase the key, apply the
field-specific coercions (`DEBUG` → `bool`, `PORT` → `int`,
`ALLOWED_HOSTS` → `list` plus an appended `"testserver"`), then delegate to
`UpperDict.__setitem__`. -/
def configSetitem (d : Node) (key : String) (v : Value) : Except Err Node :=
  let K := upper key
  let v2 : Except Err Value :=
    if K = "DEBUG" then .ok (.bool (pyBool v))
    else if K = "PORT" then (pyInt v).map (fun n => .int n)
    else if K = "ALLOWED_HOSTS" then
      (pyList v).map (fun l => .list (l ++ [.str "testserver"]))
    else .ok v
  v2.bind (fun v2 => setitem d K v2)

/-- `Config.update(data)`: `Config.__setitem__` every entry of `data` in
order. -/
def configUpdate (d : Node) (data : List (String × Value)) : Except Err Node :=
  match data with
  | [] => .ok d
  | (k, v) :: rest => (configSetitem d k v).bind (fun d2 => configUpdate d2 rest)

/-- The assignments of `Config.setdefault`, in source order (each one goes
through `Config.__setitem__`, so the coercions apply to them too). -/
def setdefaultData : List (String × Value) :=
  [ ("env", .str "dev")
  , ("debug", .bool false)
  , ("host", .str "127.0.0.1")
  , ("port", .int 4190)
  , ("log_level", .str "info")
  , ("hotreload", .bool true)
  , ("allow_underline", .bool false)
  , ("force_ssl", .bool false)
  , ("allowed_hosts", .list [.str "*"])
  , ("cors_allow_origins", .list [])
  , ("cors_allow_methods", .list [.str "GET"])
  , ("cors_allow_headers", .list [])
  , ("cors_allow_credentials", .bool false)
  , ("cors_allow_origin_regex", .null)
  , ("cors_expose_headers", .list [])
  , ("cors_max_age", .int 600)
  ]

/-- The store after `Config.__init__` has run `setdefault()` (no
configuration file, no environment variables yet). -/
def defaultConfig : Node :=
  match configUpdate [] setdefaultData with
  | .ok d => d
  | .error _ => []

/-- `Config.get(key, default)`: resolve `self["env"]`, fetch the override
sub-node `super().get(self["env"], {})`, read the key there with `None` as
default, and fall back to the root store when that read produced `None`
(a non-string environment name, or a non-`UpperDict` value stored under
it, has no `.upper`/`.get` and raises `AttributeError`). -/
def configGet (d : Node) (key : String) (default : Value) : Except Err Value :=
  (getitem d "env").bind (fun envName =>
    match envName with
    | .str s =>
      match dictFind d (upper s) with
      | some (.node c) =>
        let v := udGet c key .null
        if v.isNull then .ok (udGet d key default) else .ok v
      | some _ => .error .attributeError
      | none => .ok (udGet d key default)
    | _ => .error .attributeError)

/-- `Config.__setattr__(name, value)`: only the private `_UpperDict__dict`
slot (used once, by `UpperDict.__init__`, to install the store) may be
assigned; every other attribute assignment raises `ConfigError`. -/
def configSetattr (d : Node) (name : String) (newStore : Node) : Except Err Node :=
  if name = "_UpperDict__dict" then .ok newStore
  else .error (.configError mutationMessage)

/-- `Config.__delattr__(name)`: always raises `ConfigError`. -/
def configDelattr (d : Node) (name : String) : Except Err Node :=
  .error (.configError mutationMessage)

/-- `Config.__delitem__(key)`: always raises `ConfigError`. -/
def configDelitem (d : Node) (key : String) : Except Err Node :=
  .error (.configError mutationMessage)

/-- Does `d` differ from `c` only by letter case (it is `c` itself, or its
upper-cased, or its lower-cased form)? -/
def charCaseVar (c d : Char) : Bool := d == c || d == c.toUpper || d == c.toLower

/-- Do two character lists differ only in the case of their letters? -/
def caseVariantChars : List Char → List Char → Bool
  | [], [] => true
  | c :: cs, d :: ds => charCaseVar c d && caseVariantChars cs ds
  | _, _ => false

/-- Do two key strings differ only in the case of their letters? -/
def caseVariant (s t : String) : Bool := caseVariantChars s.data t.data

theorem toNat_ofNat_valid {n : Nat} (h : n.isValidChar) : (Char.ofNat n).toNat = n := by
  unfold Char.ofNat
  rw [dif_pos h]
  rfl

theorem toUpper_toUpper (c : Char) : c.toUpper.toUpper = c.toUpper := by
  simp only [Char.toUpper]
  by_cases h : c.toNat ≥ 97 ∧ c.toNat ≤ 122
  · rw [if_pos h]
    have hv : (c.toNat - 32).isValidChar := Or.inl (by omega)
    rw [if_neg]
    rw [toNat_ofNat_valid hv]
    omega
  · rw [if_neg h, if_neg h]

theorem toUpper_toLower (c : Char) : c.toLower.toUpper = c.toUpper := by
  simp only [Char.toUpper, Char.toLower]
  by_cases h : c.toNat ≥ 65 ∧ c.toNat ≤ 90
  · rw [if_pos h]
    have hv : (c.toNat + 32).isValidChar := Or.inl (by omega)
    rw [if_pos, if_neg (by omega), toNat_ofNat_valid hv]
    · have : c.toNat + 32 - 32 = c.toNat := by omega
      rw [this, Char.ofNat_toNat]
    · rw [toNat_ofNat_valid hv]
      omega
  · rw [if_neg h]

theorem charCaseVar_toUpper {c d : Char} (h : charCaseVar c d = true) :
    d.toUpper = c.toUpper := by
  unfold charCaseVar at h
  simp only [Bool.or_eq_true, beq_iff_eq] at h
  rcases h with (rfl | rfl) | rfl
  · rfl
  · exact toUpper_toUpper c
  · exact toUpper_toLower c

theorem caseVariantChars_map : ∀ {cs ds : List Char}, caseVariantChars cs ds = true →
    ds.map Char.toUpper = cs.map Char.toUpper
  | [], [], _ => rfl
  | c :: cs, d :: ds, h => by
    simp only [caseVariantChars, Bool.and_eq_true] at h
    simp only [List.map_cons, charCaseVar_toUpper h.1, caseVariantChars_map h.2]

theorem caseVariant_upper {s t : String} (h : caseVariant s t = true) :
    upper t = upper s := by
  unfold upper
  exact congrArg String.mk (caseVariantChars_map h)

theorem upper_upper (s : String) : upper (upper s) = upper s := by
  unfold upper
  refine congrArg String.mk ?_
  show (s.data.map Char.toUpper).map Char.toUpper = s.data.map Char.toUpper
  rw [List.map_map]
  exact List.map_congr_left (fun c _ => toUpper_toUpper c)

theorem dictFind_assign_self (d : List (String × Value)) (k : String) (v : Value) :
    dictFind (dictAssign d k v) k = some v := by
  induction d with
  | nil => simp [dictAssign, dictFind]
  | cons p rest ih =>
    obtain ⟨k', v'⟩ := p
    by_cases h : k' = k
    · simp [dictAssign, h, dictFind]
    · simp [dictAssign, h, dictFind, ih]

theorem dictFind_assign_other (d : List (String × Value)) (k : String) (v : Value)
    {K : String} (h : K ≠ k) : dictFind (dictAssign d k v) K = dictFind d K := by
  induction d with
  | nil => simp [dictAssign, dictFind, Ne.symm h]
  | cons p rest ih =>
    obtain ⟨k', v'⟩ := p
    by_cases hk : k' = k
    · subst hk
      simp only [dictAssign, if_pos rfl, dictFind]
      rw [if_neg (fun hkK => h hkK.symm), if_neg (fun hkK => h hkK.symm)]
    · simp only [dictAssign, if_neg hk, dictFind]
      by_cases hK : k' = K
      · rw [if_pos hK, if_pos hK]
      · rw [if_neg hK, if_neg hK, ih]

theorem dictAssign_found {d : List (String × Value)} {k : String} {v : Value}
    (h : dictFind d k = some v) : dictAssign d k v = d := by
  induction d with
  | nil => simp [dictFind] at h
  | cons p rest ih =>
    obtain ⟨k', v'⟩ := p
    by_cases hk : k' = k
    · subst hk
      simp [dictFind] at h
      simp [dictAssign, h]
    · simp only [dictFind, if_neg hk] at h
      simp [dictAssign, hk, ih h]

theorem setitem_not_dict {d : Node} {key : String} {v : Value} (h : v.isDict = false) :
    setitem d key v = .ok (dictAssign d (upper key) v) := by
  cases v <;> simp_all [setitem, Value.isDict]

theorem setitem_find_other {d : Node} {key : String} {v : Value} {d' : Node}
    (h : setitem d key v = .ok d') {K : String} (hK : K ≠ upper key) :
    dictFind d' K = dictFind d K := by
  cases v
  case dict es =>
    simp only [setitem] at h
    split at h
    · rename_i child heq
      cases hm : mergeItems child es with
      | ok res =>
        rw [hm] at h
        simp only [Except.map, Except.ok.injEq] at h
        rw [← h]
        exact dictFind_assign_other d (upper key) res hK
      | error e =>
        rw [hm] at h
        simp [Except.map] at h
    · cases hb : fromDict es [] with
      | ok nd =>
        rw [hb] at h
        simp only [Except.map, Except.ok.injEq] at h
        rw [← h]
        exact dictFind_assign_other d (upper key) (.node nd) hK
      | error e =>
        rw [hb] at h
        simp [Except.map] at h
  all_goals
    simp only [setitem, Except.ok.injEq] at h
    rw [← h]
    exact dictFind_assign_other d (upper key) _ hK

theorem mergeItems_preserve : ∀ {es : List (String × Value)} {c : Node} {res : Value},
    mergeItems (.node c) es = .ok res →
    ∃ c' : Node, res = .node c' ∧
      ∀ K : String, (∀ p ∈ es, upper p.1 ≠ K) → dictFind c' K = dictFind c K := by
  intro es
  induction es with
  | nil =>
    intro c res h
    simp only [mergeItems, Except.ok.injEq] at h
    exact ⟨c, h.symm, fun K _ => rfl⟩
  | cons p rest ih =>
    obtain ⟨k, v⟩ := p
    intro c res h
    simp only [mergeItems] at h
    cases hs : setitem c (upper k) v with
    | error e =>
      rw [hs] at h
      simp [Except.bind] at h
    | ok c2 =>
      rw [hs] at h
      simp only [Except.bind] at h
      obtain ⟨c', rfl, hpres⟩ := ih h
      refine ⟨c', rfl, fun K hK => ?_⟩
      have h1 : dictFind c' K = dictFind c2 K :=
        hpres K (fun q hq => hK q (List.mem_cons_of_mem _ hq))
      have h2 : dictFind c2 K = dictFind c K := by
        refine setitem_find_other hs ?_
        rw [upper_upper]
        exact fun hKk => hK (k, v) (List.mem_cons_self _ _) hKk.symm
      rw [h1, h2]

/-- C1: case-insensitive round trip. For every store, every key `k`, every
case-variant `k'` of `k` (differing only in letter case) and every
non-mapping value `v`, `__setitem__(k, v)` succeeds and `__getitem__(k')`
on the result returns `v`: set and get treat all case-variants of a key as
the same key. -/
theorem set_get_case_insensitive_round_trip
    (d : Node) (k k' : String) (v : Value)
    (hkk : caseVariant k k' = true) (hv : v.isDict = false) :
    ∃ d' : Node, setitem d k v = .ok d' ∧ getitem d' k' = .ok v := by
  refine ⟨dictAssign d (upper k) v, setitem_not_dict hv, ?_⟩
  unfold getitem
  rw [caseVariant_upper hkk, dictFind_assign_self]

/-- C1 witness: `set("Host", "x")` on an empty store, then `get("HOST")`,
returns `"x"`. -/
theorem set_get_case_insensitive_round_trip_spot :
    ∃ d' : Node, setitem [] "Host" (.str "x") = .ok d' ∧ getitem d' "HOST" = .ok (.str "x") :=
  set_get_case_insensitive_round_trip [] "Host" "HOST" (.str "x") (by decide) (by decide)

/-- C2: additive nested merge. Concretely, setting `{a: {x: 1}}` then
`{a: {y: 2}}` from an empty store yields the child `{X: 1, Y: 2}` at key
`A`, not `{Y: 2}`; in general, setting a mapping onto a key that already
holds a child node merges key-by-key into that child: the result still
holds a node there, and every child entry whose key is not overwritten by
the mapping keeps its previous value. -/
theorem nested_mapping_merge_additive :
    (setitem [] "a" (.dict [("x", .int 1)]) = .ok [("A", .node [("X", .int 1)])] ∧
     setitem [("A", .node [("X", .int 1)])] "a" (.dict [("y", .int 2)]) =
       .ok [("A", .node [("X", .int 1), ("Y", .int 2)])]) ∧
    ∀ (d : Node) (k : String) (c : Node) (es : List (String × Value)) (d' : Node),
      dictFind d (upper k) = some (.node c) → setitem d k (.dict es) = .ok d' →
      ∃ c' : Node, dictFind d' (upper k) = some (.node c') ∧
        ∀ K : String, (∀ p ∈ es, upper p.1 ≠ K) → dictFind c' K = dictFind c K := by
  refine ⟨⟨rfl, rfl⟩, ?_⟩
  intro d k c es d' hf h
  simp only [setitem, hf] at h
  cases hm : mergeItems (.node c) es with
  | error e =>
    rw [hm] at h
    simp [Except.map] at h
  | ok res =>
    rw [hm] at h
    simp only [Except.map, Except.ok.injEq] at h
    obtain ⟨c', rfl, hpres⟩ := mergeItems_preserve hm
    refine ⟨c', ?_, hpres⟩
    rw [← h, dictFind_assign_self]

/-- C2 witness: merging `{y: 2}` into the store `{A: {X: 1}}` at key `a`
leaves a child node at `A` whose entry `X` still reads `1`. -/
theorem nested_mapping_merge_additive_spot :
    ∃ c' : Node,
      dictFind [("A", Value.node [("X", Value.int 1), ("Y", Value.int 2)])] "A" =
        some (.node c') ∧
      dictFind c' "X" = dictFind [("X", Value.int 1)] "X" := by
  obtain ⟨c', h1, h2⟩ :=
    nested_mapping_merge_additive.2 [("A", .node [("X", .int 1)])] "a" [("X", .int 1)]
      [("y", .int 2)] [("A", .node [("X", .int 1), ("Y", .int 2)])] rfl rfl
  exact ⟨c', h1, h2 "X" (by decide)⟩

/-- C10: setting a mapping value onto a key that currently holds a
non-node value takes the merge branch (the code only checks key presence),
so with at least one item the per-item assignment into the stored scalar or
sequence raises `TypeError` — a Python builtin, not a `ConfigError` — and
the old value is not replaced; with an empty mapping the loop body never
runs and the store is returned unchanged. Such an assignment therefore
cannot convert a scalar-valued key into a nested node. -/
theorem set_mapping_on_scalar_key_type_error
    (d : Node) (k : String) (v0 : Value) (e : String × Value) (es : List (String × Value))
    (hf : dictFind d (upper k) = some v0) (hn : v0.isNode = false) :
    setitem d k (.dict (e :: es)) = .error .typeError ∧
    setitem d k (.dict []) = .ok d ∧
    (∀ msg : String, Err.typeError ≠ Err.configError msg) := by
  refine ⟨?_, ?_, fun msg h => by cases h⟩
  · simp only [setitem, hf]
    obtain ⟨ek, ev⟩ := e
    cases v0 <;> simp_all [mergeItems, Value.isNode, Except.map]
  · simp only [setitem, hf, mergeItems, Except.map, Except.ok.injEq]
    exact dictAssign_found hf

/-- C10 witness: on the store `{A: 5}`, setting `a` to `{x: 1}` raises
`TypeError` while setting `a` to `{}` leaves the store unchanged. -/
theorem set_mapping_on_scalar_key_type_error_spot :
    setitem [("A", Value.int 5)] "a" (.dict [("x", .int 1)]) = .error .typeError ∧
    setitem [("A", Value.int 5)] "a" (.dict []) = .ok [("A", Value.int 5)] ∧
    (∀ msg : String, Err.typeError ≠ Err.configError msg) :=
  set_mapping_on_scalar_key_type_error [("A", .int 5)] "a" (.int 5) ("x", .int 1) [] rfl rfl

/-- C3: environment-scoped read resolution. With `env = "production"` and a
root holding the child node `production: {host: "0.0.0.0"}` next to the
root-level `host: "127.0.0.1"` (both merged over the defaults through the
real construction path), `get("host")` returns `"0.0.0.0"`; on the same
root with `env = "dev"` and no `DEV` child node, `get("host")` returns
`"127.0.0.1"`. -/
theorem env_scoped_get_resolution :
    (∃ r : Node,
      configUpdate defaultConfig
        [("env", .str "production"), ("production", .dict [("host", .str "0.0.0.0")])] =
        .ok r ∧
      dictFind r "HOST" = some (.str "127.0.0.1") ∧
      configGet r "host" .null = .ok (.str "0.0.0.0")) ∧
    (∃ r : Node,
      configUpdate defaultConfig [("production", .dict [("host", .str "0.0.0.0")])] = .ok r ∧
      dictFind r "ENV" = some (.str "dev") ∧
      dictFind r "DEV" = none ∧
      dictFind r "HOST" = some (.str "127.0.0.1") ∧
      configGet r "host" .null = .ok (.str "127.0.0.1")) :=
  ⟨⟨_, rfl, rfl, rfl⟩, ⟨_, rfl, rfl, rfl, rfl, rfl⟩⟩

/-- C4 counterexample: key reassignment through item assignment is NOT
blocked after construction — `Config.__setitem__` succeeds on the fully
constructed default store, replaces the stored value, and never raises —
contradicting the claim that every mutation entry point, key reassignment
included, fails with a configuration-mutation error. -/
theorem config_item_reassignment_succeeds :
    (∃ d' : Node, configSetitem defaultConfig "host" (.str "0.0.0.0") = .ok d' ∧
      dictFind d' "HOST" = some (.str "0.0.0.0")) ∧
    ∀ e : Err, configSetitem defaultConfig "host" (.str "0.0.0.0") ≠ .error e := by
  refine ⟨⟨_, rfl, rfl⟩, fun e h => ?_⟩
  rw [show configSetitem defaultConfig "host" (.str "0.0.0.0") =
    .ok (dictAssign defaultConfig "HOST" (.str "0.0.0.0")) from rfl] at h
  cases h

/-- C4 (amended): after construction, attribute assignment (for any
attribute other than the private store slot `_UpperDict__dict`), attribute
deletion, and item deletion all fail with the `ConfigError` mutation
message and return no modified store, so the previously stored values stay
retrievable; item assignment, by contrast, remains a reachable loophole
(see the counterexample theorem). -/
theorem config_mutation_guards
    (d : Node) (name : String) (newStore : Node) (key : String)
    (hname : name ≠ "_UpperDict__dict") :
    configSetattr d name newStore = .error (.configError mutationMessage) ∧
    configDelattr d name = .error (.configError mutationMessage) ∧
    configDelitem d key = .error (.configError mutationMessage) := by
  refine ⟨?_, rfl, rfl⟩
  unfold configSetattr
  rw [if_neg hname]

/-- C4 witness: deleting or attribute-assigning `host` on the default
store raises the mutation `ConfigError`. -/
theorem config_mutation_guards_spot :
    configSetattr defaultConfig "host" [] = .error (.configError mutationMessage) ∧
    configDelattr defaultConfig "host" = .error (.configError mutationMessage) ∧
    configDelitem defaultConfig "host" = .error (.configError mutationMessage) :=
  config_mutation_guards defaultConfig "host" [] "host" (by decide)

/-- C7: `ALLOWED_HOSTS` augmentation. For every store, any casing of the
key `ALLOWED_HOSTS`, and every sequence value `l`, `Config.__setitem__`
succeeds and stores `l` with the literal string `"testserver"` appended at
the end. -/
theorem allowed_hosts_appends_testserver
    (d : Node) (k : String) (l : List Value) (hk : upper k = "ALLOWED_HOSTS") :
    ∃ d' : Node, configSetitem d k (.list l) = .ok d' ∧
      dictFind d' "ALLOWED_HOSTS" = some (.list (l ++ [.str "testserver"])) := by
  refine ⟨dictAssign d "ALLOWED_HOSTS" (.list (l ++ [.str "testserver"])), ?_, ?_⟩
  · simp only [configSetitem, hk]
    rw [if_neg (by decide), if_neg (by decide), if_true]
    simp only [pyList, Except.map, Except.bind]
    rw [@setitem_not_dict d "ALLOWED_HOSTS" (Value.list (l ++ [Value.str "testserver"])) rfl]
    rw [show upper "ALLOWED_HOSTS" = "ALLOWED_HOSTS" from rfl]
  · rw [dictFind_assign_self]

/-- C7 witness: setting `Allowed_Hosts` to `["example.com"]` stores
`["example.com", "testserver"]`. -/
theorem allowed_hosts_appends_testserver_spot :
    ∃ d' : Node, configSetitem [] "Allowed_Hosts" (.list [.str "example.com"]) = .ok d' ∧
      dictFind d' "ALLOWED_HOSTS" =
        some (.list [.str "example.com", .str "testserver"]) :=
  allowed_hosts_appends_testserver [] "Allowed_Hosts" [.str "example.com"] rfl

/-- C8: `PORT` coercion. Setting `PORT` to the string `"8080"` on the
constructed default store succeeds and stores the integer `8080`; setting
`PORT` to `"abc"` fails with the coercion error (`ValueError` from
`int("abc")`) and produces no store. -/
theorem port_coercion :
    (∃ d' : Node, configSetitem defaultConfig "PORT" (.str "8080") = .ok d' ∧
      dictFind d' "PORT" = some (.int 8080)) ∧
    configSetitem defaultConfig "PORT" (.str "abc") = .error .valueError :=
  ⟨⟨_, rfl, rfl⟩, rfl⟩

/-- C9 counterexample: a key present in the override of the active environment
sub-node with a stored `None` is NOT returned — `Config.get` conflates it
with absence and falls back to the root-level value. On a store built from
the defaults plus `{env: "production", production: {host: None}}`, the
override sub-node `PRODUCTION` holds `HOST: None`, yet `get("host")`
returns the root-level `"127.0.0.1"` instead of the stored null. -/
theorem override_present_null_falls_back :
    ∃ r : Node,
      configUpdate defaultConfig
        [("env", .str "production"), ("production", .dict [("host", .null)])] = .ok r ∧
      dictFind r "PRODUCTION" = some (.node [("HOST", .null)]) ∧
      configGet r "host" .null = .ok (.str "127.0.0.1") ∧
      configGet r "host" .null ≠ .ok .null := by
  refine ⟨_, rfl, rfl, rfl, fun h => ?_⟩
  injection h with h'
  cases h'

/-- C9 (amended): if the requested key exists in the active environment
override sub-node with a non-null value, `Config.get` returns that value
without consulting the root level; a stored null, however, is treated as
absence (the `value is None` sentinel check) and triggers the root-level
fallback. -/
theorem override_get_returns_non_null
    (d : Node) (key : String) (default : Value)
    (s : String) (c : Node) (v : Value)
    (henv : getitem d "env" = .ok (.str s))
    (hsub : dictFind d (upper s) = some (.node c))
    (hkey : dictFind c (upper key) = some v) (hv : v.isNull = false) :
    configGet d key default = .ok v := by
  simp [configGet, henv, Except.bind, hsub, udGet, hkey, hv]

/-- C9 witness: with `env = "production"` and `production: {host: "0.0.0.0"}`,
`get("host", "fallback")` returns `"0.0.0.0"` without falling back. -/
theorem override_get_returns_non_null_spot :
    configGet [("ENV", .str "production"), ("PRODUCTION", .node [("HOST", .str "0.0.0.0")])]
      "host" (.str "fallback") = .ok (.str "0.0.0.0") :=
  override_get_returns_non_null
    [("ENV", .str "production"), ("PRODUCTION", .node [("HOST", .str "0.0.0.0")])]
    "host" (.str "fallback") "production" [("HOST", .str "0.0.0.0")] (.str "0.0.0.0")
    rfl rfl rfl rfl

/-- C6 counterexample: with `INDEX_DEBUG="true"` the environment overlay is
`{debug: false}`, not `{debug: true}`: the affirmative tokens in the code are
`"on"` and `"True"` (capital T), so the lowercase token `"true"` named by
the claim is rejected. -/
theorem index_debug_lowercase_true_rejected :
    importEnviron (some "true") none = [("debug", Value.bool false)] ∧
    importEnviron (some "true") none ≠ [("debug", Value.bool true)] := by
  refine ⟨rfl, fun h => ?_⟩
  rw [show importEnviron (some "true") none = [("debug", Value.bool false)] from rfl] at h
  simp at h

/-- C6 (amended): if `INDEX_DEBUG` is present and equal to one of the
affirmative tokens `"on"` or `"True"`, the environment overlay maps
`debug` to true; if it is present with any other non-empty value, the
overlay maps `debug` to false; if it is absent, the overlay has no `debug`
entry — all regardless of the `INDEX_ENV` variable. -/
theorem index_debug_token_recognition (dbg env : Option String) :
    ((dbg = some "on" ∨ dbg = some "True") →
      dictFind (importEnviron dbg env) "debug" = some (.bool true)) ∧
    (∀ s : String, dbg = some s → s ≠ "" → s ≠ "on" → s ≠ "True" →
      dictFind (importEnviron dbg env) "debug" = some (.bool false)) ∧
    (dbg = none → dictFind (importEnviron dbg env) "debug" = none) := by
  have hfind : ∀ r1 : List (String × Value),
      dictFind
        (match env with
          | some s => if s = "" then r1 else dictAssign r1 "env" (.str s)
          | none => r1) "debug" = dictFind r1 "debug" := by
    intro r1
    cases env with
    | none => rfl
    | some s =>
      dsimp only
      by_cases hs : s = ""
      · rw [if_pos hs]
      · rw [if_neg hs]
        exact dictFind_assign_other r1 "env" (.str s) (by decide)
  refine ⟨fun h => ?_, fun s hdbg hne hon htrue => ?_, fun h => ?_⟩
  · rcases h with rfl | rfl <;>
    · simp only [importEnviron]
      rw [if_neg (by decide), hfind]
      rfl
  · subst hdbg
    simp only [importEnviron]
    rw [if_neg hne, hfind, dictFind_assign_self]
    have hbeq : (s == "on" || s == "True") = false := by
      simp [hon, htrue]
    rw [hbeq]
  · subst h
    simp only [importEnviron]
    rw [hfind]
    rfl

/-- C6 witness: `INDEX_DEBUG="on"` yields `{debug: true}`; a non-token
value such as `"yes"` yields `{debug: false}`; an unset variable yields no
`debug` entry. -/
theorem index_debug_token_recognition_spot :
    dictFind (importEnviron (some "on") none) "debug" = some (.bool true) ∧
    dictFind (importEnviron (some "yes") (some "production")) "debug" = some (.bool false) ∧
    dictFind (importEnviron none (some "production")) "debug" = none :=
  ⟨(index_debug_token_recognition (some "on") none).1 (Or.inl rfl),
   (index_debug_token_recognition (some "yes") (some "production")).2.1 "yes" rfl
     (by decide) (by decide) (by decide),
   (index_debug_token_recognition none (some "production")).2.2 rfl⟩

/-- C5: conflicting-sources hard stop. Whenever two distinct candidate
configuration files both exist in the working directory, the discovery
scan of `Config.import_from_file` fails with a `ConfigFileError` whose
message names two distinct existing candidate files — it never silently
picks one. -/
theorem conflicting_config_files_error
    (fs : List String) (c1 c2 : String)
    (h1 : c1 ∈ candidateFiles) (h2 : c2 ∈ candidateFiles) (hne : c1 ≠ c2)
    (e1 : c1 ∈ fs) (e2 : c2 ∈ fs) :
    ∃ a b : String, findConfigFile fs = .error (.configFileError a b) ∧
      a ≠ b ∧ a ∈ fs ∧ b ∈ fs ∧
      a ∈ candidateFiles ∧ b ∈ candidateFiles := by
  have hc1 : c1 = "config.json" ∨ c1 = "index.json" ∨ c1 = "index.yaml" ∨ c1 = "index.yml" := by
    simpa [candidateFiles] using h1
  have hc2 : c2 = "config.json" ∨ c2 = "index.json" ∨ c2 = "index.yaml" ∨ c2 = "index.yml" := by
    simpa [candidateFiles] using h2
  by_cases hA : "config.json" ∈ fs
  · by_cases hB : "index.json" ∈ fs
    · exact ⟨"config.json", "index.json",
        by simp [findConfigFile, candidateFiles, scanLoop, hA, hB],
        by decide, hA, hB, by decide, by decide⟩
    · by_cases hC : "index.yaml" ∈ fs
      · exact ⟨"config.json", "index.yaml",
          by simp [findConfigFile, candidateFiles, scanLoop, hA, hB, hC],
          by decide, hA, hC, by decide, by decide⟩
      · by_cases hD : "index.yml" ∈ fs
        · exact ⟨"config.json", "index.yml",
            by simp [findConfigFile, candidateFiles, scanLoop, hA, hB, hC, hD],
            by decide, hA, hD, by decide, by decide⟩
        · exfalso
          rcases hc1 with rfl | rfl | rfl | rfl <;> rcases hc2 with rfl | rfl | rfl | rfl <;>
            simp_all
  · by_cases hB : "index.json" ∈ fs
    · by_cases hC : "index.yaml" ∈ fs
      · exact ⟨"index.json", "index.yaml",
          by simp [findConfigFile, candidateFiles, scanLoop, hA, hB, hC],
          by decide, hB, hC, by decide, by decide⟩
      · by_cases hD : "index.yml" ∈ fs
        · exact ⟨"index.json", "index.yml",
            by simp [findConfigFile, candidateFiles, scanLoop, hA, hB, hC, hD],
            by decide, hB, hD, by decide, by decide⟩
        · exfalso
          rcases hc1 with rfl | rfl | rfl | rfl <;> rcases hc2 with rfl | rfl | rfl | rfl <;>
            simp_all
    · by_cases hC : "index.yaml" ∈ fs
      · by_cases hD : "index.yml" ∈ fs
        · exact ⟨"index.yaml", "index.yml",
            by simp [findConfigFile, candidateFiles, scanLoop, hA, hB, hC, hD],
            by decide, hC, hD, by decide, by decide⟩
        · exfalso
          rcases hc1 with rfl | rfl | rfl | rfl <;> rcases hc2 with rfl | rfl | rfl | rfl <;>
            simp_all
      · exfalso
        rcases hc1 with rfl | rfl | rfl | rfl <;> rcases hc2 with rfl | rfl | rfl | rfl <;>
          simp_all

/-- C5 witness: with both `config.json` and `index.yaml` present, the scan
fails with a `ConfigFileError` naming two distinct existing candidates. -/
theorem conflicting_config_files_error_spot :
    ∃ a b : String,
      findConfigFile ["config.json", "index.yaml"] = .error (.configFileError a b) ∧
      a ≠ b ∧ a ∈ ["config.json", "index.yaml"] ∧
      b ∈ ["config.json", "index.yaml"] ∧
      a ∈ candidateFiles ∧ b ∈ candidateFiles :=
  conflicting_config_files_error ["config.json", "index.yaml"] "config.json" "index.yaml"
    (by decide) (by decide) (by decide) (by decide) (by decide)

end IndexConfig
